import Mathlib

/-!
Shallow embedding of `src/libs/pilka_ash/src/renderpass_and_pipeline.rs`.

The Vulkan enums and create-info structures are embedded as Lean inductives
and structures carrying exactly the fields the source reads or writes; the
default value of each field matches the zero-initialised `Default`
implementation of the corresponding `ash` type (`..Default::default()` in the
source corresponds to the omitted fields below).  Opaque native handles
(`vk::ShaderModule`, `vk::Pipeline`, `vk::PipelineLayout`, `vk::RenderPass`)
are embedded as `Nat`.  Float-valued fields (viewport coordinates, depth
bounds, line width) hold only exact small values converted from integers, so
they are embedded as `Int`.  The GPU driver behind `ash::Device` is embedded
as an oracle (`RawDevice`) holding the predetermined results of the two
creation calls the source makes; executions additionally record the list of
driver calls issued, so that ordering and resource-release behaviour is
provable.
-/

inductive BlendFactor
| ZERO
| ONE
| SRC_COLOR
| ONE_MINUS_SRC_COLOR
| DST_COLOR
| ONE_MINUS_DST_COLOR
deriving DecidableEq

inductive BlendOp
| ADD
| SUBTRACT
deriving DecidableEq

inductive CompareOp
| NEVER
| ALWAYS
deriving DecidableEq

inductive StencilOp
| KEEP
| ZERO
deriving DecidableEq

inductive DynamicState
| VIEWPORT
| SCISSOR
| LINE_WIDTH
deriving DecidableEq

inductive PolygonMode
| FILL
| LINE
deriving DecidableEq

inductive FrontFace
| COUNTER_CLOCKWISE
| CLOCKWISE
deriving DecidableEq

inductive CullModeFlags
| NONE
| FRONT
| BACK
| FRONT_AND_BACK
deriving DecidableEq

inductive PrimitiveTopology
| POINT_LIST
| TRIANGLE_LIST
deriving DecidableEq

inductive SampleCountFlags
| EMPTY
| TYPE_1
| TYPE_2
deriving DecidableEq

inductive LogicOp
| CLEAR
| COPY
deriving DecidableEq

inductive ShaderStageFlags
| VERTEX
| FRAGMENT
deriving DecidableEq

/-- Embedding of `vk::ColorComponentFlags` as four channel bits; `all` is
`vk::ColorComponentFlags::all()` (R, G, B and A enabled). -/
structure ColorComponentFlags where
  r : Bool := false
  g : Bool := false
  b : Bool := false
  a : Bool := false
deriving DecidableEq

def ColorComponentFlags.all : ColorComponentFlags :=
  { r := true, g := true, b := true, a := true }

structure StencilOpState where
  fail_op : StencilOp := StencilOp.KEEP
  pass_op : StencilOp := StencilOp.KEEP
  depth_fail_op : StencilOp := StencilOp.KEEP
  compare_op : CompareOp := CompareOp.NEVER
  compare_mask : Nat := 0
  write_mask : Nat := 0
  reference : Nat := 0
deriving DecidableEq

structure PipelineVertexInputStateCreateInfo where
  vertex_binding_description_count : Nat := 0
  vertex_attribute_description_count : Nat := 0
deriving DecidableEq

structure PipelineInputAssemblyStateCreateInfo where
  topology : PrimitiveTopology := PrimitiveTopology.POINT_LIST
  primitive_restart_enable : Nat := 0
deriving DecidableEq

structure PipelineRasterizationStateCreateInfo where
  depth_clamp_enable : Nat := 0
  rasterizer_discard_enable : Nat := 0
  polygon_mode : PolygonMode := PolygonMode.FILL
  cull_mode : CullModeFlags := CullModeFlags.NONE
  front_face : FrontFace := FrontFace.COUNTER_CLOCKWISE
  depth_bias_enable : Nat := 0
  line_width : Int := 0
deriving DecidableEq

structure PipelineMultisampleStateCreateInfo where
  rasterization_samples : SampleCountFlags := SampleCountFlags.EMPTY
  sample_shading_enable : Nat := 0
deriving DecidableEq

structure PipelineDepthStencilStateCreateInfo where
  depth_test_enable : Nat := 0
  depth_write_enable : Nat := 0
  depth_compare_op : CompareOp := CompareOp.NEVER
  depth_bounds_test_enable : Nat := 0
  stencil_test_enable : Nat := 0
  front : StencilOpState := {}
  back : StencilOpState := {}
  min_depth_bounds : Int := 0
  max_depth_bounds : Int := 0
deriving DecidableEq

structure PipelineColorBlendAttachmentState where
  blend_enable : Nat := 0
  src_color_blend_factor : BlendFactor := BlendFactor.ZERO
  dst_color_blend_factor : BlendFactor := BlendFactor.ZERO
  color_blend_op : BlendOp := BlendOp.ADD
  src_alpha_blend_factor : BlendFactor := BlendFactor.ZERO
  dst_alpha_blend_factor : BlendFactor := BlendFactor.ZERO
  alpha_blend_op : BlendOp := BlendOp.ADD
  color_write_mask : ColorComponentFlags := {}
deriving DecidableEq

/-- Embedding of `vk::PipelineColorBlendStateCreateInfo`; the `attachments`
builder call that stores a pointer and count is embedded as storing the
attachment list itself. -/
structure PipelineColorBlendStateCreateInfo where
  logic_op_enable : Nat := 0
  logic_op : LogicOp := LogicOp.CLEAR
  attachments : List PipelineColorBlendAttachmentState := []
deriving DecidableEq

structure PipelineDynamicStateCreateInfo where
  dynamic_states : List DynamicState := []
deriving DecidableEq

/-- Embedding of `vk::PipelineShaderStageCreateInfo`; `p_name` holds the
entry-point string the source points `p_name` at. -/
structure PipelineShaderStageCreateInfo where
  stage : ShaderStageFlags
  module : Nat
  p_name : String
deriving DecidableEq

structure Viewport where
  x : Int
  y : Int
  width : Int
  height : Int
  min_depth : Int
  max_depth : Int
deriving DecidableEq

structure Offset2D where
  x : Int
  y : Int
deriving DecidableEq

structure Extent2D where
  width : Nat
  height : Nat
deriving DecidableEq

structure Rect2D where
  offset : Offset2D
  extent : Extent2D
deriving DecidableEq

structure PipelineViewportStateCreateInfo where
  viewports : List Viewport := []
  scissors : List Rect2D := []
deriving DecidableEq

/-- Embedding of `vk::PipelineLayoutCreateInfo::default()`: no descriptor set
layouts and no push-constant ranges. -/
structure PipelineLayoutCreateInfo where
  set_layout_count : Nat := 0
  push_constant_range_count : Nat := 0
deriving DecidableEq

structure GraphicsPipelineCreateInfo where
  stages : List PipelineShaderStageCreateInfo
  vertex_input_state : PipelineVertexInputStateCreateInfo
  input_assembly_state : PipelineInputAssemblyStateCreateInfo
  viewport_state : PipelineViewportStateCreateInfo
  rasterization_state : PipelineRasterizationStateCreateInfo
  multisample_state : PipelineMultisampleStateCreateInfo
  color_blend_state : PipelineColorBlendStateCreateInfo
  dynamic_state : PipelineDynamicStateCreateInfo
  layout : Nat
  render_pass : Nat
deriving DecidableEq

inductive VkError
| ERROR_OUT_OF_HOST_MEMORY
| ERROR_OUT_OF_DEVICE_MEMORY
| ERROR_DEVICE_LOST
| ERROR_INITIALIZATION_FAILED
deriving DecidableEq

/-- Embedding of `VkRenderPass` (the struct only stores the opaque handle and
the device reference).  Modelled from the spec: `colorAttachmentCount` records
how many color attachments the render-pass description declared (spec section
3, RenderPass); the source keeps this only in the attachment description in
code outside this file, and the pipeline-creation code under test never reads
it. -/
structure VkRenderPass where
  render_pass : Nat
  colorAttachmentCount : Nat
deriving DecidableEq

/-- Oracle model of the GPU driver behind `RawDevice`: the predetermined
outcome of `create_pipeline_layout`, the predetermined success or failure of
`create_graphics_pipelines`, and the first pipeline handle the driver hands
out on success (successive handles in one batch count up from it, so handle
values never depend on the create-info contents). -/
structure RawDevice where
  layoutResult : Except VkError Nat
  pipelinesResult : Except VkError Unit
  basePipelineHandle : Nat

/-- Driver calls a run of the embedded code can issue, in order. -/
inductive DriverCall
| create_pipeline_layout : PipelineLayoutCreateInfo → DriverCall
| create_graphics_pipelines : List GraphicsPipelineCreateInfo → DriverCall
| destroy_pipeline : Nat → DriverCall
| destroy_pipeline_layout : Nat → DriverCall
deriving DecidableEq

/-- True exactly for the resource-release calls. -/
def DriverCall.isDestroy : DriverCall → Bool
| DriverCall.destroy_pipeline _ => true
| DriverCall.destroy_pipeline_layout _ => true
| _ => false

/-- Outcome of a fallible Rust computation: `ok`, an error propagated with
`?`, or a process abort via `.expect`/`panic` carrying the message. -/
inductive Outcome (α : Type)
| ok : α → Outcome α
| err : VkError → Outcome α
| panicked : String → Outcome α

def RawDevice.create_pipeline_layout (device : RawDevice)
    (_info : PipelineLayoutCreateInfo) : Except VkError Nat :=
  device.layoutResult

def RawDevice.create_graphics_pipelines (device : RawDevice)
    (infos : List GraphicsPipelineCreateInfo) : Except VkError (List Nat) :=
  match device.pipelinesResult with
  | Except.error e => Except.error e
  | Except.ok _ =>
      Except.ok ((List.range infos.length).map fun i => device.basePipelineHandle + i)

/-- Embedding of the `PipelineDescriptor` struct (source lines 30 to 41). -/
structure PipelineDescriptor where
  color_blend_attachments : List PipelineColorBlendAttachmentState
  dynamic_state : List DynamicState
  shader_stages : List PipelineShaderStageCreateInfo
  vertex_input : PipelineVertexInputStateCreateInfo
  input_assembly : PipelineInputAssemblyStateCreateInfo
  rasterization : PipelineRasterizationStateCreateInfo
  multisample : PipelineMultisampleStateCreateInfo
  depth_stencil : PipelineDepthStencilStateCreateInfo
  color_blend : PipelineColorBlendStateCreateInfo
  dynamic_state_info : PipelineDynamicStateCreateInfo
deriving DecidableEq

/-- The `noop_stencil_state` local of `PipelineDescriptor::new` (source lines
65 to 71). -/
def noop_stencil_state : StencilOpState :=
  { fail_op := StencilOp.KEEP
    pass_op := StencilOp.KEEP
    depth_fail_op := StencilOp.KEEP
    compare_op := CompareOp.ALWAYS }

/-- Embedding of `PipelineDescriptor::new` (source lines 44 to 113). -/
def PipelineDescriptor.new
    (shader_stages : List PipelineShaderStageCreateInfo) : PipelineDescriptor :=
  let vertex_input : PipelineVertexInputStateCreateInfo :=
    { vertex_attribute_description_count := 0
      vertex_binding_description_count := 0 }
  let input_assembly : PipelineInputAssemblyStateCreateInfo :=
    { topology := PrimitiveTopology.TRIANGLE_LIST }
  let rasterization : PipelineRasterizationStateCreateInfo :=
    { front_face := FrontFace.COUNTER_CLOCKWISE
      line_width := 1
      polygon_mode := PolygonMode.FILL }
  let multisample : PipelineMultisampleStateCreateInfo :=
    { rasterization_samples := SampleCountFlags.TYPE_1 }
  let depth_stencil : PipelineDepthStencilStateCreateInfo :=
    { depth_test_enable := 0
      depth_write_enable := 0
      depth_compare_op := CompareOp.ALWAYS
      front := noop_stencil_state
      back := noop_stencil_state
      max_depth_bounds := 1 }
  let color_blend_attachments : List PipelineColorBlendAttachmentState :=
    [{ blend_enable := 0
       src_color_blend_factor := BlendFactor.SRC_COLOR
       dst_color_blend_factor := BlendFactor.ONE_MINUS_DST_COLOR
       color_blend_op := BlendOp.ADD
       src_alpha_blend_factor := BlendFactor.ZERO
       dst_alpha_blend_factor := BlendFactor.ZERO
       alpha_blend_op := BlendOp.ADD
       color_write_mask := ColorComponentFlags.all }]
  let color_blend : PipelineColorBlendStateCreateInfo :=
    { logic_op := LogicOp.CLEAR
      attachments := color_blend_attachments }
  let dynamic_state : List DynamicState :=
    [DynamicState.VIEWPORT, DynamicState.SCISSOR]
  let dynamic_state_info : PipelineDynamicStateCreateInfo :=
    { dynamic_states := dynamic_state }
  { shader_stages := shader_stages
    vertex_input := vertex_input
    input_assembly := input_assembly
    rasterization := rasterization
    multisample := multisample
    depth_stencil := depth_stencil
    color_blend_attachments := color_blend_attachments
    color_blend := color_blend
    dynamic_state := dynamic_state
    dynamic_state_info := dynamic_state_info }

/-- Embedding of the `VkPipeline` struct (source lines 116 to 122): the
returned pipeline owns the pipeline handles, the layout handle, the device
reference and the cached viewport and scissor arrays, and nothing else (in
particular no shader-module handles). -/
structure VkPipeline where
  pipelines : List Nat
  pipeline_layout : Nat
  device : RawDevice
  viewports : List Viewport
  scissors : List Rect2D

/-- The `CString::new("main")` shader entry-point name (source line 140). -/
def VkPipeline.shaderEntryName : String := "main"

/-- The message of the `.expect` on the pipeline-creation driver call (source
line 235). -/
def VkPipeline.expectMessage : String := "Unable to create graphics pipeline"

/-- The viewport computed by `VkPipeline::new` (source lines 170 to 177):
origin at the bottom-left with negated height, compensating the inverted
clip-space Y axis. -/
def VkPipeline.viewportFor (extent : Extent2D) : Viewport :=
  { x := 0
    y := (extent.height : Int)
    width := (extent.width : Int)
    height := -(extent.height : Int)
    min_depth := 0
    max_depth := 1 }

/-- The scissor rectangle computed by `VkPipeline::new` (source lines 178 to
181): full extent at offset (0, 0). -/
def VkPipeline.scissorFor (extent : Extent2D) : Rect2D :=
  { offset := { x := 0, y := 0 }
    extent := extent }

/-- The single `vk::GraphicsPipelineCreateInfo` that `VkPipeline::new`
assembles and submits (source lines 140 to 226). -/
def VkPipeline.mkCreateInfo (vertex_shader_module fragment_shader_module : Nat)
    (extent : Extent2D) (render_pass : VkRenderPass) (pipeline_layout : Nat) :
    GraphicsPipelineCreateInfo :=
  let shader_stage_create_infos : List PipelineShaderStageCreateInfo :=
    [{ module := vertex_shader_module
       p_name := VkPipeline.shaderEntryName
       stage := ShaderStageFlags.VERTEX },
     { module := fragment_shader_module
       p_name := VkPipeline.shaderEntryName
       stage := ShaderStageFlags.FRAGMENT }]
  let vertex_input_state_info : PipelineVertexInputStateCreateInfo := {}
  let vertex_input_assembly_state_info : PipelineInputAssemblyStateCreateInfo :=
    { topology := PrimitiveTopology.TRIANGLE_LIST }
  let viewports : List Viewport := [VkPipeline.viewportFor extent]
  let scissors : List Rect2D := [VkPipeline.scissorFor extent]
  let viewport_state_info : PipelineViewportStateCreateInfo :=
    { scissors := scissors, viewports := viewports }
  let rasterization_info : PipelineRasterizationStateCreateInfo :=
    { front_face := FrontFace.COUNTER_CLOCKWISE
      line_width := 1
      polygon_mode := PolygonMode.FILL
      cull_mode := CullModeFlags.BACK }
  let multisample_state_info : PipelineMultisampleStateCreateInfo :=
    { rasterization_samples := SampleCountFlags.TYPE_1 }
  let color_blend_attachment_states : List PipelineColorBlendAttachmentState :=
    [{ blend_enable := 0
       src_color_blend_factor := BlendFactor.SRC_COLOR
       dst_color_blend_factor := BlendFactor.ONE_MINUS_DST_COLOR
       color_blend_op := BlendOp.ADD
       src_alpha_blend_factor := BlendFactor.ZERO
       dst_alpha_blend_factor := BlendFactor.ZERO
       alpha_blend_op := BlendOp.ADD
       color_write_mask := ColorComponentFlags.all }]
  let color_blend_state : PipelineColorBlendStateCreateInfo :=
    { logic_op := LogicOp.CLEAR
      attachments := color_blend_attachment_states }
  let dynamic_state : List DynamicState :=
    [DynamicState.VIEWPORT, DynamicState.SCISSOR]
  let dynamic_state_info : PipelineDynamicStateCreateInfo :=
    { dynamic_states := dynamic_state }
  { stages := shader_stage_create_infos
    vertex_input_state := vertex_input_state_info
    input_assembly_state := vertex_input_assembly_state_info
    viewport_state := viewport_state_info
    rasterization_state := rasterization_info
    multisample_state := multisample_state_info
    color_blend_state := color_blend_state
    dynamic_state := dynamic_state_info
    layout := pipeline_layout
    render_pass := render_pass.render_pass }

/-- Embedding of `VkPipeline::new` (source lines 125 to 244), returning both
the outcome and the ordered list of driver calls issued.  Layout-creation
failure propagates with `?`; pipeline-creation failure hits the `.expect` and
aborts (`Outcome.panicked`). -/
def VkPipeline.newRun (vertex_shader_module fragment_shader_module : Nat)
    (extent : Extent2D) (render_pass : VkRenderPass) (device : RawDevice) :
    Outcome VkPipeline × List DriverCall :=
  let layout_create_info : PipelineLayoutCreateInfo := {}
  match device.create_pipeline_layout layout_create_info with
  | Except.error e =>
      (Outcome.err e, [DriverCall.create_pipeline_layout layout_create_info])
  | Except.ok pipeline_layout =>
      let info := VkPipeline.mkCreateInfo vertex_shader_module
        fragment_shader_module extent render_pass pipeline_layout
      let calls := [DriverCall.create_pipeline_layout layout_create_info,
                    DriverCall.create_graphics_pipelines [info]]
      match device.create_graphics_pipelines [info] with
      | Except.error _ => (Outcome.panicked VkPipeline.expectMessage, calls)
      | Except.ok graphics_pipelines =>
          (Outcome.ok
            { pipelines := graphics_pipelines
              pipeline_layout := pipeline_layout
              device := device
              viewports := [VkPipeline.viewportFor extent]
              scissors := [VkPipeline.scissorFor extent] },
           calls)

/-- The outcome of `VkPipeline::new` alone. -/
def VkPipeline.new (vertex_shader_module fragment_shader_module : Nat)
    (extent : Extent2D) (render_pass : VkRenderPass) (device : RawDevice) :
    Outcome VkPipeline :=
  (VkPipeline.newRun vertex_shader_module fragment_shader_module extent
    render_pass device).1

/-- Embedding of `VkPipeline::get` (source lines 246 to 248); the source
indexes `self.pipelines[0]`, which panics on an empty vector, so the
embedding returns `Option` and safety is the result being `some`. -/
def VkPipeline.get (p : VkPipeline) : Option Nat :=
  p.pipelines[0]?

/-- Embedding of `Drop for VkPipeline` (source lines 251 to 263) as the
ordered list of driver calls the destructor issues: every pipeline handle in
order, then the pipeline layout. -/
def VkPipeline.dropRun (p : VkPipeline) : List DriverCall :=
  p.pipelines.map DriverCall.destroy_pipeline ++
    [DriverCall.destroy_pipeline_layout p.pipeline_layout]

/-- A concrete render pass with one color attachment, for witnesses. -/
def rpOne : VkRenderPass := { render_pass := 7, colorAttachmentCount := 1 }

/-- A concrete render pass whose color-attachment count (2) differs from the
descriptor attachment count (1) hard-coded by `VkPipeline::new`. -/
def rpMismatch : VkRenderPass := { render_pass := 7, colorAttachmentCount := 2 }

/-- A concrete driver on which both creation calls succeed. -/
def devOk : RawDevice :=
  { layoutResult := Except.ok 10
    pipelinesResult := Except.ok ()
    basePipelineHandle := 20 }

/-- A concrete driver on which layout creation succeeds and pipeline creation
fails. -/
def devPipeFail : RawDevice :=
  { layoutResult := Except.ok 10
    pipelinesResult := Except.error VkError.ERROR_OUT_OF_DEVICE_MEMORY
    basePipelineHandle := 20 }

/-- The extent used in the concrete end-to-end scenario of the spec. -/
def ext640 : Extent2D := { width := 640, height := 480 }

/-- The pipeline value `VkPipeline::new` returns on `devOk` with `rpOne` and
extent 640 by 480. -/
def gpOk : VkPipeline :=
  { pipelines := [20]
    pipeline_layout := 10
    device := devOk
    viewports := [VkPipeline.viewportFor ext640]
    scissors := [VkPipeline.scissorFor ext640] }

/-! Helper characterisations of `VkPipeline.newRun`, one per driver outcome. -/

/-- If layout creation fails, the error propagates after a single driver
call. -/
theorem VkPipeline.newRun_eq_err (v f : Nat) (e : Extent2D) (rp : VkRenderPass)
    (d : RawDevice) (er : VkError) (hl : d.layoutResult = Except.error er) :
    VkPipeline.newRun v f e rp d =
      (Outcome.err er, [DriverCall.create_pipeline_layout {}]) := by
  simp [VkPipeline.newRun, RawDevice.create_pipeline_layout, hl]

/-- If layout creation succeeds and pipeline creation fails, the run hits the
`.expect` and aborts, after both creation calls and no destroy call. -/
theorem VkPipeline.newRun_eq_panicked (v f : Nat) (e : Extent2D)
    (rp : VkRenderPass) (d : RawDevice) (l : Nat) (er : VkError)
    (hl : d.layoutResult = Except.ok l)
    (hp : d.pipelinesResult = Except.error er) :
    VkPipeline.newRun v f e rp d =
      (Outcome.panicked VkPipeline.expectMessage,
       [DriverCall.create_pipeline_layout {},
        DriverCall.create_graphics_pipelines [VkPipeline.mkCreateInfo v f e rp l]]) := by
  simp [VkPipeline.newRun, RawDevice.create_pipeline_layout,
    RawDevice.create_graphics_pipelines, hl, hp]

/-- If both driver calls succeed, the run returns the pipeline built from the
single driver-issued handle. -/
theorem VkPipeline.newRun_eq_ok (v f : Nat) (e : Extent2D) (rp : VkRenderPass)
    (d : RawDevice) (l : Nat) (hl : d.layoutResult = Except.ok l)
    (hp : d.pipelinesResult = Except.ok ()) :
    VkPipeline.newRun v f e rp d =
      (Outcome.ok
        { pipelines := [d.basePipelineHandle]
          pipeline_layout := l
          device := d
          viewports := [VkPipeline.viewportFor e]
          scissors := [VkPipeline.scissorFor e] },
       [DriverCall.create_pipeline_layout {},
        DriverCall.create_graphics_pipelines [VkPipeline.mkCreateInfo v f e rp l]]) := by
  simp [VkPipeline.newRun, RawDevice.create_pipeline_layout,
    RawDevice.create_graphics_pipelines, hl, hp, List.range_succ]

/-- Claim C1: for every target extent (w, h) with w > 0 and h > 0, a
successful `VkPipeline::new` computes a viewport with x = 0, y = h,
width = w, height = -h, min_depth = 0, max_depth = 1 and a scissor with
offset (0, 0) and extent (w, h), and stores exactly these values in the
returned pipeline's `viewports` and `scissors` fields. -/
theorem claim_C1 (v f w h : Nat) (rp : VkRenderPass) (d : RawDevice)
    (gp : VkPipeline) (hw : 0 < w) (hh : 0 < h)
    (hok : VkPipeline.new v f { width := w, height := h } rp d = Outcome.ok gp) :
    gp.viewports =
      [{ x := 0, y := (h : Int), width := (w : Int), height := -(h : Int),
         min_depth := 0, max_depth := 1 }] ∧
    gp.scissors =
      [{ offset := { x := 0, y := 0 }, extent := { width := w, height := h } }] := by
  rcases hld : d.layoutResult with er | l
  · rw [VkPipeline.new, VkPipeline.newRun_eq_err v f _ rp d er hld] at hok
    exact Outcome.noConfusion hok
  · rcases hpd : d.pipelinesResult with er | u
    · rw [VkPipeline.new,
        VkPipeline.newRun_eq_panicked v f _ rp d l er hld hpd] at hok
      exact Outcome.noConfusion hok
    · cases u
      rw [VkPipeline.new, VkPipeline.newRun_eq_ok v f _ rp d l hld hpd] at hok
      cases hok
      exact ⟨rfl, rfl⟩

/-- Witness for C1 at the concrete extent 640 by 480 on a driver where both
creation calls succeed. -/
theorem claim_C1_witness :
    gpOk.viewports =
      [{ x := 0, y := (480 : Int), width := 640, height := -480,
         min_depth := 0, max_depth := 1 }] ∧
    gpOk.scissors =
      [{ offset := { x := 0, y := 0 }, extent := { width := 640, height := 480 } }] :=
  claim_C1 1 2 640 480 rpOne devOk gpOk (by decide) (by decide) rfl

/-- Counterexample to C2 as stated: with a render pass declaring 2 color
attachments while the create info hard-codes exactly 1 color-blend
attachment, `VkPipeline::new` does not fail with any configuration error —
it issues the driver creation call and succeeds.  The source contains no
attachment-count validation and no ConfigurationMismatch error at all. -/
theorem claim_C2_counterexample :
    rpMismatch.colorAttachmentCount = 2 ∧
    (VkPipeline.mkCreateInfo 1 2 ext640 rpMismatch
      10).color_blend_state.attachments.length = 1 ∧
    VkPipeline.newRun 1 2 ext640 rpMismatch devOk =
      (Outcome.ok
        { pipelines := [20]
          pipeline_layout := 10
          device := devOk
          viewports := [VkPipeline.viewportFor ext640]
          scissors := [VkPipeline.scissorFor ext640] },
       [DriverCall.create_pipeline_layout {},
        DriverCall.create_graphics_pipelines
          [VkPipeline.mkCreateInfo 1 2 ext640 rpMismatch 10]]) :=
  ⟨rfl, rfl, rfl⟩

/-- Claim C2 as amended: `VkPipeline::new` performs no attachment-count
validation.  Even when the render pass color-attachment count differs from
the descriptor color-blend-attachment count (hard-coded 1), the driver
creation call is still issued and the operation succeeds whenever the driver
succeeds; no ConfigurationMismatch error exists in the code. -/
theorem claim_C2_amended (v f : Nat) (e : Extent2D) (rp : VkRenderPass)
    (d : RawDevice) (l : Nat)
    (hmis : rp.colorAttachmentCount ≠
      (VkPipeline.mkCreateInfo v f e rp l).color_blend_state.attachments.length)
    (hl : d.layoutResult = Except.ok l)
    (hp : d.pipelinesResult = Except.ok ()) :
    VkPipeline.new v f e rp d =
      Outcome.ok
        { pipelines := [d.basePipelineHandle]
          pipeline_layout := l
          device := d
          viewports := [VkPipeline.viewportFor e]
          scissors := [VkPipeline.scissorFor e] } ∧
    DriverCall.create_graphics_pipelines [VkPipeline.mkCreateInfo v f e rp l] ∈
      (VkPipeline.newRun v f e rp d).2 := by
  rw [VkPipeline.new, VkPipeline.newRun_eq_ok v f e rp d l hl hp]
  exact ⟨rfl, by simp⟩

/-- Witness for the amended C2 at the mismatching render pass (2 declared
color attachments against the hard-coded 1) on a succeeding driver. -/
theorem claim_C2_amended_witness :
    VkPipeline.new 1 2 ext640 rpMismatch devOk =
      Outcome.ok
        { pipelines := [devOk.basePipelineHandle]
          pipeline_layout := 10
          device := devOk
          viewports := [VkPipeline.viewportFor ext640]
          scissors := [VkPipeline.scissorFor ext640] } ∧
    DriverCall.create_graphics_pipelines
        [VkPipeline.mkCreateInfo 1 2 ext640 rpMismatch 10] ∈
      (VkPipeline.newRun 1 2 ext640 rpMismatch devOk).2 :=
  claim_C2_amended 1 2 ext640 rpMismatch devOk 10 (by decide) rfl rfl

/-- Counterexample to C3 as stated: on a driver where layout creation
succeeds (handle 10) and pipeline creation fails, `VkPipeline::new` does not
destroy the layout and does not return an error — it aborts via `.expect`,
and the complete call trace holds exactly the two creation calls, no destroy
call. -/
theorem claim_C3_counterexample :
    VkPipeline.newRun 1 2 ext640 rpOne devPipeFail =
      (Outcome.panicked VkPipeline.expectMessage,
       [DriverCall.create_pipeline_layout {},
        DriverCall.create_graphics_pipelines
          [VkPipeline.mkCreateInfo 1 2 ext640 rpOne 10]]) :=
  rfl

/-- Claim C3 as amended: whenever pipeline-layout creation succeeds and the
pipeline-creation driver call fails, `VkPipeline::new` aborts the process
(`.expect` with message Unable to create graphics pipeline) instead of
returning an error, and it issues no destroy call for the already-created
pipeline layout (the trace holds exactly the two creation calls). -/
theorem claim_C3_amended (v f : Nat) (e : Extent2D) (rp : VkRenderPass)
    (d : RawDevice) (l : Nat) (er : VkError)
    (hl : d.layoutResult = Except.ok l)
    (hp : d.pipelinesResult = Except.error er) :
    (VkPipeline.newRun v f e rp d).1 =
      Outcome.panicked VkPipeline.expectMessage ∧
    (VkPipeline.newRun v f e rp d).2 =
      [DriverCall.create_pipeline_layout {},
       DriverCall.create_graphics_pipelines
         [VkPipeline.mkCreateInfo v f e rp l]] := by
  rw [VkPipeline.newRun_eq_panicked v f e rp d l er hl hp]
  exact ⟨rfl, rfl⟩

/-- Witness for the amended C3 on the concrete driver whose pipeline-creation
call fails with an out-of-device-memory error. -/
theorem claim_C3_amended_witness :
    (VkPipeline.newRun 1 2 ext640 rpOne devPipeFail).1 =
      Outcome.panicked VkPipeline.expectMessage ∧
    (VkPipeline.newRun 1 2 ext640 rpOne devPipeFail).2 =
      [DriverCall.create_pipeline_layout {},
       DriverCall.create_graphics_pipelines
         [VkPipeline.mkCreateInfo 1 2 ext640 rpOne 10]] :=
  claim_C3_amended 1 2 ext640 rpOne devPipeFail 10
    VkError.ERROR_OUT_OF_DEVICE_MEMORY rfl rfl

/-- Claim C4: every successful `VkPipeline::new` returns exactly one pipeline
handle and stores the single layout handle the driver returned (the struct
holds exactly one `pipeline_layout` field by construction), and every
`create_graphics_pipelines` driver call the run issues carries a batch of
exactly one create info. -/
theorem claim_C4 (v f : Nat) (e : Extent2D) (rp : VkRenderPass)
    (d : RawDevice) (gp : VkPipeline)
    (hok : VkPipeline.new v f e rp d = Outcome.ok gp) :
    gp.pipelines.length = 1 ∧
    d.layoutResult = Except.ok gp.pipeline_layout ∧
    ∀ infos, DriverCall.create_graphics_pipelines infos ∈
        (VkPipeline.newRun v f e rp d).2 → infos.length = 1 := by
  rcases hld : d.layoutResult with er | l
  · rw [VkPipeline.new, VkPipeline.newRun_eq_err v f e rp d er hld] at hok
    exact Outcome.noConfusion hok
  · rcases hpd : d.pipelinesResult with er | u
    · rw [VkPipeline.new,
        VkPipeline.newRun_eq_panicked v f e rp d l er hld hpd] at hok
      exact Outcome.noConfusion hok
    · cases u
      rw [VkPipeline.new, VkPipeline.newRun_eq_ok v f e rp d l hld hpd] at hok
      cases hok
      refine ⟨rfl, rfl, ?_⟩
      intro infos hmem
      rw [VkPipeline.newRun_eq_ok v f e rp d l hld hpd] at hmem
      simp only [List.mem_cons, List.mem_singleton] at hmem
      rcases hmem with hmem | hmem | hmem
      · exact DriverCall.noConfusion hmem
      · cases hmem
        rfl
      · cases hmem

/-- Witness for C4 on the concrete succeeding driver. -/
theorem claim_C4_witness :
    gpOk.pipelines.length = 1 ∧
    devOk.layoutResult = Except.ok gpOk.pipeline_layout ∧
    ∀ infos, DriverCall.create_graphics_pipelines infos ∈
        (VkPipeline.newRun 1 2 ext640 rpOne devOk).2 → infos.length = 1 :=
  claim_C4 1 2 ext640 rpOne devOk gpOk rfl

/-- Claim C5: for every shader-stage list, the descriptor built by
`PipelineDescriptor::new` has exactly one color-blend attachment — blending
disabled, write mask enabling all channels, source-color and
one-minus-destination-color blend factors — and its dynamic-state set is
exactly viewport and scissor. -/
theorem claim_C5 (shader_stages : List PipelineShaderStageCreateInfo) :
    (PipelineDescriptor.new shader_stages).color_blend_attachments =
      [{ blend_enable := 0
         src_color_blend_factor := BlendFactor.SRC_COLOR
         dst_color_blend_factor := BlendFactor.ONE_MINUS_DST_COLOR
         color_blend_op := BlendOp.ADD
         src_alpha_blend_factor := BlendFactor.ZERO
         dst_alpha_blend_factor := BlendFactor.ZERO
         alpha_blend_op := BlendOp.ADD
         color_write_mask := ColorComponentFlags.all }] ∧
    (PipelineDescriptor.new shader_stages).color_blend_attachments.length = 1 ∧
    (PipelineDescriptor.new shader_stages).dynamic_state =
      [DynamicState.VIEWPORT, DynamicState.SCISSOR] :=
  ⟨rfl, rfl, rfl⟩

/-- Claim C6: the default descriptor configures rasterization with fill
polygon mode, counter-clockwise front face, line width 1 and no culling,
while the create info assembled by `VkPipeline::new` configures the same
state except with back-face culling enabled. -/
theorem claim_C6 (shader_stages : List PipelineShaderStageCreateInfo)
    (v f : Nat) (e : Extent2D) (rp : VkRenderPass) (l : Nat) :
    (PipelineDescriptor.new shader_stages).rasterization =
      { polygon_mode := PolygonMode.FILL
        front_face := FrontFace.COUNTER_CLOCKWISE
        line_width := 1
        cull_mode := CullModeFlags.NONE } ∧
    (VkPipeline.mkCreateInfo v f e rp l).rasterization_state =
      { polygon_mode := PolygonMode.FILL
        front_face := FrontFace.COUNTER_CLOCKWISE
        line_width := 1
        cull_mode := CullModeFlags.BACK } :=
  ⟨rfl, rfl⟩

/-- Claim C7: the create info submitted by `VkPipeline::new` binds exactly
two shader stages — first the vertex stage with the supplied vertex module,
then the fragment stage with the supplied fragment module, both with entry
point "main" — and the returned `VkPipeline` stores the module handles
nowhere: the outcome of the run is unchanged when only the module handles
change (the struct has no module field; modules are borrowed, not owned). -/
theorem claim_C7 (v f v2 f2 : Nat) (e : Extent2D) (rp : VkRenderPass)
    (d : RawDevice) (l : Nat) (hl : d.layoutResult = Except.ok l) :
    (VkPipeline.mkCreateInfo v f e rp l).stages =
      [{ stage := ShaderStageFlags.VERTEX, module := v, p_name := "main" },
       { stage := ShaderStageFlags.FRAGMENT, module := f, p_name := "main" }] ∧
    DriverCall.create_graphics_pipelines [VkPipeline.mkCreateInfo v f e rp l] ∈
      (VkPipeline.newRun v f e rp d).2 ∧
    (VkPipeline.newRun v f e rp d).1 = (VkPipeline.newRun v2 f2 e rp d).1 := by
  refine ⟨rfl, ?_, ?_⟩
  · rcases hpd : d.pipelinesResult with er | u
    · rw [VkPipeline.newRun_eq_panicked v f e rp d l er hl hpd]
      simp
    · cases u
      rw [VkPipeline.newRun_eq_ok v f e rp d l hl hpd]
      simp
  · rcases hpd : d.pipelinesResult with er | u
    · rw [VkPipeline.newRun_eq_panicked v f e rp d l er hl hpd,
        VkPipeline.newRun_eq_panicked v2 f2 e rp d l er hl hpd]
    · cases u
      rw [VkPipeline.newRun_eq_ok v f e rp d l hl hpd,
        VkPipeline.newRun_eq_ok v2 f2 e rp d l hl hpd]

/-- Witness for C7 with distinct module handles on the succeeding driver. -/
theorem claim_C7_witness :
    (VkPipeline.mkCreateInfo 1 2 ext640 rpOne 10).stages =
      [{ stage := ShaderStageFlags.VERTEX, module := 1, p_name := "main" },
       { stage := ShaderStageFlags.FRAGMENT, module := 2, p_name := "main" }] ∧
    DriverCall.create_graphics_pipelines
        [VkPipeline.mkCreateInfo 1 2 ext640 rpOne 10] ∈
      (VkPipeline.newRun 1 2 ext640 rpOne devOk).2 ∧
    (VkPipeline.newRun 1 2 ext640 rpOne devOk).1 =
      (VkPipeline.newRun 3 4 ext640 rpOne devOk).1 :=
  claim_C7 1 2 3 4 ext640 rpOne devOk 10 rfl

/-- Claim C8: for every shader-stage list, the default descriptor's
depth/stencil state has depth test disabled, depth write disabled, compare
operation always and depth-bounds interval [0, 1]. -/
theorem claim_C8 (shader_stages : List PipelineShaderStageCreateInfo) :
    (PipelineDescriptor.new shader_stages).depth_stencil =
      { depth_test_enable := 0
        depth_write_enable := 0
        depth_compare_op := CompareOp.ALWAYS
        front := noop_stencil_state
        back := noop_stencil_state
        min_depth_bounds := 0
        max_depth_bounds := 1 } :=
  rfl

/-- Claim C10: for every pipeline returned by a successful `VkPipeline::new`,
the `pipelines` vector is the non-empty singleton of the driver-issued
handle, so `get` (which the source writes as indexing element 0) cannot fail
and returns that single handle. -/
theorem claim_C10 (v f : Nat) (e : Extent2D) (rp : VkRenderPass)
    (d : RawDevice) (gp : VkPipeline)
    (hok : VkPipeline.new v f e rp d = Outcome.ok gp) :
    gp.pipelines = [d.basePipelineHandle] ∧
    gp.pipelines ≠ [] ∧
    VkPipeline.get gp = some d.basePipelineHandle := by
  rcases hld : d.layoutResult with er | l
  · rw [VkPipeline.new, VkPipeline.newRun_eq_err v f e rp d er hld] at hok
    exact Outcome.noConfusion hok
  · rcases hpd : d.pipelinesResult with er | u
    · rw [VkPipeline.new,
        VkPipeline.newRun_eq_panicked v f e rp d l er hld hpd] at hok
      exact Outcome.noConfusion hok
    · cases u
      rw [VkPipeline.new, VkPipeline.newRun_eq_ok v f e rp d l hld hpd] at hok
      cases hok
      exact ⟨rfl, by simp, rfl⟩

/-- Witness for C10 on the concrete succeeding driver. -/
theorem claim_C10_witness :
    gpOk.pipelines = [devOk.basePipelineHandle] ∧
    gpOk.pipelines ≠ [] ∧
    VkPipeline.get gpOk = some devOk.basePipelineHandle :=
  claim_C10 1 2 ext640 rpOne devOk gpOk rfl

/-- The constructor `DriverCall.destroy_pipeline` is injective. -/
theorem destroy_pipeline_injective :
    Function.Injective DriverCall.destroy_pipeline := by
  intro a b hab
  injection hab

/-- Claim C9: the destructor trace of a `VkPipeline` destroys every pipeline
strictly before the pipeline layout, releases each handle exactly once
(pipeline handles under the no-duplicates invariant the driver guarantees for
one batch), and contains only destroy calls — once destruction begins no call
re-establishes a usable state. -/
theorem claim_C9 (p : VkPipeline) (hnd : p.pipelines.Nodup) :
    (∀ (i j a b : Nat), (VkPipeline.dropRun p)[i]? = some (DriverCall.destroy_pipeline a) →
        (VkPipeline.dropRun p)[j]? =
          some (DriverCall.destroy_pipeline_layout b) → i < j) ∧
    (∀ a ∈ p.pipelines,
      (VkPipeline.dropRun p).count (DriverCall.destroy_pipeline a) = 1) ∧
    (VkPipeline.dropRun p).count
      (DriverCall.destroy_pipeline_layout p.pipeline_layout) = 1 ∧
    (∀ c ∈ VkPipeline.dropRun p, c.isDestroy = true) := by
  refine ⟨?_, ?_, ?_, ?_⟩
  · intro i j a b hi hj
    have hjlt : j < (VkPipeline.dropRun p).length :=
      (List.getElem?_eq_some_iff.mp hj).1
    have hlen : (VkPipeline.dropRun p).length = p.pipelines.length + 1 := by
      simp [VkPipeline.dropRun]
    have hjn : ¬ j < p.pipelines.length := by
      intro hjlt2
      have hmapj : (VkPipeline.dropRun p)[j]? =
          (p.pipelines.map DriverCall.destroy_pipeline)[j]? := by
        rw [VkPipeline.dropRun]
        exact List.getElem?_append_left (by simpa using hjlt2)
      rw [hmapj, List.getElem?_map] at hj
      rcases hx : p.pipelines[j]? with _ | x
      · rw [hx] at hj
        exact Option.noConfusion hj
      · rw [hx] at hj
        exact DriverCall.noConfusion (Option.some.inj hj)
    have hin : i < p.pipelines.length := by
      by_contra hile
      have hilt : i < (VkPipeline.dropRun p).length :=
        (List.getElem?_eq_some_iff.mp hi).1
      have hieq : i = p.pipelines.length := by omega
      have hlasti : (VkPipeline.dropRun p)[i]? =
          some (DriverCall.destroy_pipeline_layout p.pipeline_layout) := by
        rw [VkPipeline.dropRun,
          List.getElem?_append_right (by simp [hieq])]
        simp [hieq]
      rw [hlasti] at hi
      exact DriverCall.noConfusion (Option.some.inj hi)
    omega
  · intro a ha
    rw [VkPipeline.dropRun, List.count_append,
      List.count_map_of_injective p.pipelines DriverCall.destroy_pipeline
        destroy_pipeline_injective a,
      List.count_eq_one_of_mem hnd ha]
    simp
  · rw [VkPipeline.dropRun, List.count_append]
    have hz : (p.pipelines.map DriverCall.destroy_pipeline).count
        (DriverCall.destroy_pipeline_layout p.pipeline_layout) = 0 := by
      rw [List.count_eq_zero]
      intro hmem
      rcases List.mem_map.mp hmem with ⟨x, _, hx⟩
      exact DriverCall.noConfusion hx
    rw [hz]
    simp
  · intro c hc
    rw [VkPipeline.dropRun] at hc
    rcases List.mem_append.mp hc with hc | hc
    · rcases List.mem_map.mp hc with ⟨x, _, hx⟩
      rw [← hx]
      rfl
    · rcases List.mem_singleton.mp hc with rfl
      rfl

/-- Witness for C9 at the concrete pipeline returned on the succeeding
driver (one pipeline handle, 20, and layout handle 10). -/
theorem claim_C9_witness :
    (∀ (i j a b : Nat), (VkPipeline.dropRun gpOk)[i]? =
        some (DriverCall.destroy_pipeline a) →
        (VkPipeline.dropRun gpOk)[j]? =
          some (DriverCall.destroy_pipeline_layout b) → i < j) ∧
    (∀ a ∈ gpOk.pipelines,
      (VkPipeline.dropRun gpOk).count (DriverCall.destroy_pipeline a) = 1) ∧
    (VkPipeline.dropRun gpOk).count
      (DriverCall.destroy_pipeline_layout gpOk.pipeline_layout) = 1 ∧
    (∀ c ∈ VkPipeline.dropRun gpOk, c.isDestroy = true) :=
  claim_C9 gpOk (by decide)
